import Mathlib

/-!
Verification development for a repository of two choropleth-map scripts:
`scripts/coloring-countries/color_world_map.py` and `scripts/pain-to-map.py`.

The scripts are embedded shallowly:

* a pandas `DataFrame` is a `DF`: a list of column names plus rows of `Cell`s
  (`Cell.null` models `NaN`);
* the geometry table, once read, is also viewed as a typed list of rows
  (`WRow` for `color_world_map.py`, which reads the GeoPandas
  `naturalearth_lowres` dataset whose relevant columns are `name` and
  `iso_a3`; `PWRow` for `pain-to-map.py`, which reads a Natural Earth
  110m admin-0 countries archive whose relevant columns are `SOVEREIGNT`
  and `SOV_A3`);
* `pandas.merge(..., how="left")` becomes `leftJoin`;
* external effectful libraries are parameters: CRS reprojection is a
  `toCrs : String → Except String (Geom → Geom)` argument (either the CRS
  is rejected or it yields a per-geometry transform), figure saving is a
  `save : String → Bool` argument;
* calls into `mapclassify` are recorded as `ClassifierSpec` values that
  remember exactly which classifier was constructed and with which
  arguments;
* the plot invocation is recorded as a `PlotCall` value carrying the
  keyword arguments the script actually passes to `GeoDataFrame.plot`.
-/

set_option autoImplicit false

namespace PainMap

/-- A pandas cell: a string, an integer (stand-in for the numeric dtype used
by the value column), or `NaN`/missing. -/
inductive Cell where
  | str (s : String)
  | num (n : Int)
  | null
deriving DecidableEq, Repr

/-- A pandas `DataFrame`: a header of column names and positional rows. -/
structure DF where
  cols : List String
  rows : List (List Cell)
deriving DecidableEq, Repr

/-- Index of a column label in a header. -/
def colIdx (cols : List String) (c : String) : Option Nat :=
  cols.findIdx? (fun x => x == c)

/-- Read the cell of a row under a column label (`none` if the column is
absent from the header). -/
def getCellRow (cols : List String) (row : List Cell) (c : String) : Option Cell :=
  (colIdx cols c).bind row.get?

/-- `df.loc[df[maskCol] == maskVal, col] = v` for a string scalar `v`:
if `col` exists, the masked rows have that cell overwritten; otherwise a new
column is appended whose cells are `v` on masked rows and `NaN` elsewhere.
This is the pandas behaviour of label-based scalar assignment. -/
def locSet (df : DF) (maskCol : String) (maskVal : String) (col : String) (v : String) : DF :=
  let mask := fun r => getCellRow df.cols r maskCol == some (Cell.str maskVal)
  match colIdx df.cols col with
  | some i => { df with rows := df.rows.map (fun r => if mask r then r.set i (Cell.str v) else r) }
  | none =>
      { cols := df.cols ++ [col],
        rows := df.rows.map (fun r => r ++ [if mask r then Cell.str v else Cell.null]) }

/-- `_load_world` of `pain-to-map.py` (lines 33-43), after `gpd.read_file`:
the three hardcoded corrections, written exactly as in the source — the
masks test the `SOVEREIGNT` column and the assignments target the
lowercase label `sov_a3`. -/
def painLoadWorldDF (world : DF) : DF :=
  locSet (locSet (locSet world "SOVEREIGNT" "France" "sov_a3" "FRA")
      "SOVEREIGNT" "Norway" "sov_a3" "NOR")
    "SOVEREIGNT" "Somaliland" "sov_a3" "SOL"

/-- `load_world` of `color_world_map.py` (lines 38-48), after reading the
`naturalearth_lowres` dataset: the three hardcoded corrections, with masks on
`name` and assignments to `iso_a3`. -/
def colorLoadWorldDF (world : DF) : DF :=
  locSet (locSet (locSet world "name" "France" "iso_a3" "FRA")
      "name" "Norway" "iso_a3" "NOR")
    "name" "Somaliland" "iso_a3" "SOL"

/-! ### Code normalization (`.astype(str).str.upper().str.strip()`) -/

/-- The whitespace characters recognised by Python's `str.strip` (restricted
to ASCII, which is all that occurs in country codes). -/
def isPySpace (c : Char) : Bool :=
  c == ' ' || c == '\t' || c == '\n' || c == '\r' || c == '\x0b' || c == '\x0c'

/-- Python `str.strip`: drop leading and trailing whitespace. -/
def pyStrip (l : List Char) : List Char :=
  (((l.dropWhile isPySpace).reverse).dropWhile isPySpace).reverse

/-- Python `str(cell)` as applied by `.astype(str)`: strings unchanged,
numbers printed, `NaN` printed as `nan`. -/
def pyAstypeStr : Cell → String
  | Cell.str s => s
  | Cell.num n => toString n
  | Cell.null => "nan"

/-- The code-column normalisation of `color_world_map.py` line 100 and
`pain-to-map.py` line 55 applied to one entry:
`.astype(str).str.upper().str.strip()`. -/
def cleanCode (s : String) : String :=
  String.mk (pyStrip (s.data.map Char.toUpper))

/-- Replace cell `i` of a row by its normalised form (`List.set` is the
identity on an out-of-range index, matching that pandas rows always carry a
cell for an existing column). -/
def cleanRow (i : Nat) (r : List Cell) : List Cell :=
  r.set i (Cell.str (cleanCode (pyAstypeStr ((r.get? i).getD Cell.null))))

/-- `df[codeCol] = df[codeCol].astype(str).str.upper().str.strip()`. -/
def cleanCodesDF (df : DF) (codeCol : String) : DF :=
  match colIdx df.cols codeCol with
  | some i => { df with rows := df.rows.map (cleanRow i) }
  | none => df

/-! ### Typed view of the tables and the left merge -/

/-- Geometry payload (opaque to every claim; reprojection transforms it). -/
abbrev Geom := Int

/-- One row of the user value table as the merge consumes it
(`df[[code_col, value_col]]`): a code and a possibly-missing value cell. -/
structure VRow where
  code : String
  value : Option Cell
deriving DecidableEq, Repr

/-- One row of the geometry table as `color_world_map.py` uses it:
the `naturalearth_lowres` columns `name` and `iso_a3` (the join key) plus
the geometry. -/
structure WRow where
  name : String
  key : String
  geom : Geom
deriving DecidableEq, Repr

/-- One row of the geometry table as `pain-to-map.py` uses it: the Natural
Earth columns `SOVEREIGNT` and `SOV_A3` (the join key, `CODE_COLUMN`), the
geometry, and the lowercase `sov_a3` column that `_load_world`'s assignments
create (absent, i.e. `none`, in the shipped dataset). -/
structure PWRow where
  sovereignt : String
  key : String
  sovA3 : Option String
  geom : Geom
deriving DecidableEq, Repr

/-- A row of the merged table: the originating geometry row, its geometry
column, and the right-hand code and value columns brought in by the merge
(`none` = `NaN` on unmatched rows). -/
structure MRowG (α : Type) where
  left : α
  geom : Geom
  rcode : Option String
  value : Option Cell
deriving DecidableEq, Repr

/-- The merged rows produced by one geometry row under
`pandas.merge(..., how="left")`: one row per matching value row, or a single
all-`NaN`-right row when nothing matches. -/
def joinOne {α : Type} (key : α → String) (geomOf : α → Geom)
    (vs : List VRow) (g : α) : List (MRowG α) :=
  if (vs.filter (fun v => v.code == key g)).isEmpty then [⟨g, geomOf g, none, none⟩]
  else (vs.filter (fun v => v.code == key g)).map (fun v => ⟨g, geomOf g, some v.code, v.value⟩)

/-- `world.merge(df[[code, value]], left_on=key, right_on=code, how="left")`:
the concatenation, in geometry order, of each geometry row's merged rows. -/
def leftJoin {α : Type} (key : α → String) (geomOf : α → Geom)
    (w : List α) (vs : List VRow) : List (MRowG α) :=
  match w with
  | [] => []
  | g :: gs => joinOne key geomOf vs g ++ leftJoin key geomOf gs vs

/-- Boolean string-list membership (`c in set(...)`). -/
def strMem (c : String) (l : List String) : Bool :=
  l.any (fun x => x == c)

/-- `set(df[code_col].unique())`: the provided codes. -/
def providedOf (vs : List VRow) : List String :=
  (vs.map VRow.code).dedup

/-- `set(merged.loc[~merged[value_col].isna(), KEY].unique())`: the join keys
of merged rows carrying a non-null value. -/
def matchedOf {α : Type} (key : α → String) (merged : List (MRowG α)) : List String :=
  ((merged.filter (fun m => m.value.isSome)).map (fun m => key m.left)).dedup

/-- `sorted(provided_codes - matched_codes)` up to ordering: the provided
codes with no non-null merged row. -/
def missingOf {α : Type} (key : α → String) (vs : List VRow)
    (merged : List (MRowG α)) : List String :=
  (providedOf vs).filter (fun c => !(strMem c (matchedOf key merged)))

/-- Extract the typed value rows the merge consumes from the (cleaned)
dataframe: `df[[code_col, value_col]]`. -/
def dfValueRows (df : DF) (codeCol valueCol : String) : List VRow :=
  match colIdx df.cols codeCol, colIdx df.cols valueCol with
  | some i, some j =>
      df.rows.map (fun r =>
        ⟨pyAstypeStr ((r.get? i).getD Cell.null), cellOpt ((r.get? j).getD Cell.null)⟩)
  | _, _ => []
where cellOpt : Cell → Option Cell
  | Cell.null => none
  | c => some c

/-! ### Projections and classification -/

/-- The `PROJECTIONS` dictionary, identical in both scripts. -/
def PROJECTIONS : List (String × String) :=
  [("PlateCarree", "EPSG:4326"),
   ("Mercator", "EPSG:3395"),
   ("Robinson", "+proj=robin +lon_0=0 +x_0=0 +y_0=0 +datum=WGS84 +units=m +no_defs"),
   ("Mollweide", "+proj=moll +lon_0=0 +x_0=0 +y_0=0 +datum=WGS84 +units=m +no_defs"),
   ("EqualEarth", "+proj=eqearth +lon_0=0 +datum=WGS84 +units=m +no_defs"),
   ("WinkelTripel", "+proj=wintri +lon_0=0 +datum=WGS84 +units=m +no_defs")]

/-- Python `dict.get(key)`. -/
def lookupStr (l : List (String × String)) (k : String) : Option String :=
  match l with
  | [] => none
  | (a, b) :: t => if a == k then some b else lookupStr t k

/-- `pain-to-map.py`: `USED_PROJECTION = "PlateCarree"`. -/
def USED_PROJECTION : String := "PlateCarree"

/-- The CRS string `pain-to-map.py` passes to `to_crs`:
`PROJECTIONS.get(USED_PROJECTION)` (the dictionary contains the key, so the
`Option` is forced; `""` stands for the unreachable `None`). -/
def painCrs : String := (lookupStr PROJECTIONS USED_PROJECTION).getD ""

/-- Lines 117-122 of `color_world_map.py` and 70-75 of `pain-to-map.py`:
`merged.to_crs(crs)` inside `try`, with a fallback
`merged.to_crs(PROJECTIONS["PlateCarree"])` in the `except` arm.  The
returned `Bool` is `true` exactly when the `warnings.warn` fallback path
ran; an error of the fallback itself is an uncaught exception. -/
def projectStep {α : Type} (toCrs : String → Except String (Geom → Geom))
    (crs : String) (t : List (MRowG α)) : Except String (Bool × List (MRowG α)) :=
  match toCrs crs with
  | Except.ok f => Except.ok (false, t.map (fun m => { m with geom := f m.geom }))
  | Except.error _ =>
      match toCrs "EPSG:4326" with
      | Except.ok f => Except.ok (true, t.map (fun m => { m with geom := f m.geom }))
      | Except.error e => Except.error e

/-- The `mapclassify` constructor invoked by `classify_values`, with the
arguments the script passes to it. -/
inductive ClassifierSpec where
  | quantiles (series : List Cell) (k : Nat)
  | equalInterval (series : List Cell) (k : Nat)
  | naturalBreaks (series : List Cell) (k : Nat)
  | stdMean (series : List Cell)
deriving DecidableEq, Repr

/-- The number-of-classes argument handed to the external classifier, if
any: `mc.StdMean` is constructed without one. -/
def specK : ClassifierSpec → Option Nat
  | ClassifierSpec.quantiles _ k => some k
  | ClassifierSpec.equalInterval _ k => some k
  | ClassifierSpec.naturalBreaks _ k => some k
  | ClassifierSpec.stdMean _ => none

/-- Python `str.lower` (ASCII), character by character. -/
def pyLower (s : String) : String :=
  String.mk (s.data.map Char.toLower)

/-- `classify_values(series, scheme, k)` of `color_world_map.py`
(lines 50-61): dispatch on the lowercased scheme name; `none` models the
`return None` (continuous) arm. -/
def classify_values (series : List Cell) (scheme : Option String) (k : Nat) :
    Option ClassifierSpec :=
  let s := pyLower (scheme.getD "")
  if s == "quantiles" || s == "quantile" || s == "q" then
    some (ClassifierSpec.quantiles series k)
  else if s == "equal_interval" || s == "equalinterval" || s == "equal" || s == "ei" then
    some (ClassifierSpec.equalInterval series k)
  else if s == "natural_breaks" || s == "jenks" || s == "nb" then
    some (ClassifierSpec.naturalBreaks series k)
  else if s == "std_mean" || s == "std" || s == "zscore" then
    some (ClassifierSpec.stdMean series)
  else none

/-! ### The rendering calls and the two script pipelines -/

/-- The keyword arguments of a `GeoDataFrame.plot` invocation that the
claims refer to: the plotted column, the colormap, and the `missing_kwds`
color and `edgecolor` (each `none` when the call does not pass them). -/
structure PlotCall where
  column : String
  cmap : String
  missingColor : Option String
  edgeColor : Option String
deriving DecidableEq, Repr

/-- What a run of `main` in `color_world_map.py` produced, as far as the
claims observe it. -/
structure RenderOut where
  merged : List (MRowG WRow)
  warned : Bool
  missingCodes : List String
  crs : String
  crsFallback : Bool
  classifier : Option ClassifierSpec
  plot : PlotCall
deriving DecidableEq, Repr

/-- Outcome of `main` in `color_world_map.py`: `sys.exit(code)` with a
message on stderr, an uncaught exception, or a completed render. -/
inductive MainResult where
  | exit (code : Nat) (msg : String)
  | crash (msg : String)
  | ok (out : RenderOut)
deriving DecidableEq, Repr

/-- The command-line options of `color_world_map.py` that influence the
embedded behaviour. -/
structure ColorCfg where
  codeCol : String
  valueCol : String
  cmap : String
  missingColor : String
  edgeColor : String
  projection : String
  scheme : Option String
  k : Nat
deriving DecidableEq, Repr

/-- The argparse defaults of `color_world_map.py` (lines 67-84). -/
def colorDefaults : ColorCfg :=
  { codeCol := "iso_a3", valueCol := "value", cmap := "viridis",
    missingColor := "#EEEEEE", edgeColor := "#FFFFFF",
    projection := "Robinson", scheme := none, k := 5 }

/-- Lines 45-47 of `color_world_map.py` on the typed view of the
`naturalearth_lowres` table (which has the `name` and `iso_a3` columns):
rows named France, Norway, Somaliland get their `iso_a3` join key replaced. -/
def colorFixWorld (w : List WRow) : List WRow :=
  ((w.map (fun r => if r.name == "France" then { r with key := "FRA" } else r)).map
      (fun r => if r.name == "Norway" then { r with key := "NOR" } else r)).map
    (fun r => if r.name == "Somaliland" then { r with key := "SOL" } else r)

/-- Lines 40-42 of `pain-to-map.py` on the typed view of the Natural Earth
admin-0 table: the assignments target the lowercase `sov_a3` label, which is
not the `SOV_A3` join key — so only the `sovA3` field changes. -/
def painFixWorld (w : List PWRow) : List PWRow :=
  ((w.map (fun r => if r.sovereignt == "France" then { r with sovA3 := some "FRA" } else r)).map
      (fun r => if r.sovereignt == "Norway" then { r with sovA3 := some "NOR" } else r)).map
    (fun r => if r.sovereignt == "Somaliland" then { r with sovA3 := some "SOL" } else r)

/-- `PROJECTIONS.get(args.projection, "EPSG:4326")` (line 117). -/
def projCrs (cfg : ColorCfg) : String :=
  (lookupStr PROJECTIONS cfg.projection).getD "EPSG:4326"

/-- The merge of `color_world_map.py` line 106 on an already-cleaned
dataframe: left join of the fixed world with the selected columns. -/
def colorMergedOf (df2 : DF) (world : List WRow) (cfg : ColorCfg) : List (MRowG WRow) :=
  leftJoin WRow.key WRow.geom (colorFixWorld world) (dfValueRows df2 cfg.codeCol cfg.valueCol)

/-- The plot keyword arguments of `color_world_map.py` lines 149-156. -/
def colorPlot (cfg : ColorCfg) (column : String) : PlotCall :=
  { column := column, cmap := cfg.cmap,
    missingColor := some cfg.missingColor, edgeColor := some cfg.edgeColor }

/-- `values.dropna()` (line 128): the non-null entries of the merged value
column. -/
def validOf {α : Type} (t : List (MRowG α)) : List Cell :=
  (t.map MRowG.value).filterMap id

/-- `main` of `color_world_map.py` from the column check onward, operating
on the dataframe after the line-100 normalisation. -/
def colorAfterClean (df2 : DF) (world : List WRow)
    (toCrs : String → Except String (Geom → Geom)) (cfg : ColorCfg) : MainResult :=
  match projectStep toCrs (projCrs cfg) (colorMergedOf df2 world cfg) with
  | Except.error e => MainResult.crash e
  | Except.ok (fb, merged2) =>
      match cfg.scheme with
      | none =>
          MainResult.ok
            { merged := merged2,
              warned := !(missingOf WRow.key (dfValueRows df2 cfg.codeCol cfg.valueCol)
                  (colorMergedOf df2 world cfg)).isEmpty,
              missingCodes := missingOf WRow.key (dfValueRows df2 cfg.codeCol cfg.valueCol)
                  (colorMergedOf df2 world cfg),
              crs := projCrs cfg, crsFallback := fb, classifier := none,
              plot := colorPlot cfg cfg.valueCol }
      | some _ =>
          if (validOf merged2).isEmpty then MainResult.exit 1 "No numeric values to classify."
          else
            match classify_values (validOf merged2) cfg.scheme cfg.k with
            | none => MainResult.crash "AttributeError"
            | some cl =>
                MainResult.ok
                  { merged := merged2,
                    warned := !(missingOf WRow.key (dfValueRows df2 cfg.codeCol cfg.valueCol)
                        (colorMergedOf df2 world cfg)).isEmpty,
                    missingCodes := missingOf WRow.key (dfValueRows df2 cfg.codeCol cfg.valueCol)
                        (colorMergedOf df2 world cfg),
                    crs := projCrs cfg, crsFallback := fb, classifier := some cl,
                    plot := colorPlot cfg "_class" }

/-- `main` of `color_world_map.py`, lines 95 onward: check the two columns
(exit 1 if absent), clean the code column in place, then merge, warn,
project, classify and plot. -/
def colorWorldMain (df : DF) (world : List WRow)
    (toCrs : String → Except String (Geom → Geom)) (cfg : ColorCfg) : MainResult :=
  if cfg.codeCol ∈ df.cols ∧ cfg.valueCol ∈ df.cols then
    colorAfterClean (cleanCodesDF df cfg.codeCol) world toCrs cfg
  else
    MainResult.exit 1 ("CSV must include columns " ++ cfg.codeCol ++ " and " ++ cfg.valueCol)

/-- What a completed `generate_map` run of `pain-to-map.py` produced. -/
structure PainOut where
  merged : List (MRowG PWRow)
  warned : Bool
  missingCodes : List String
  crs : String
  crsFallback : Bool
  plot : PlotCall
  savedTo : Option String
deriving DecidableEq, Repr

/-- Outcome of `generate_map`: an uncaught exception, or a return carrying
the caller's dataframe after the call (line 55 mutates it in place), the
stderr messages printed, the Python return value (`none` models returning
`None`), and the render observation if the run got that far. -/
inductive PainResult where
  | crash (msg : String)
  | ret (dfAfter : DF) (stderr : List String) (retval : Option Bool) (out : Option PainOut)
deriving DecidableEq, Repr

/-- `pain-to-map.py` line 30: `args_missing_color`. -/
def painMissingColor : String := "#EEEEEE"

/-- `pain-to-map.py` line 30: `args_edge_color`. -/
def painEdgeColor : String := "#00FF37"

/-- The `plot_kwargs` dictionary built on lines 85-91 of `pain-to-map.py`
(with `missing_kwds` carrying the missing color). The call that would use it
(line 92) is commented out in the source. -/
def painUnusedPlotKwargs (valueCol : String) : PlotCall :=
  { column := valueCol, cmap := "", missingColor := some painMissingColor,
    edgeColor := some painEdgeColor }

/-- The plot invocation `pain-to-map.py` actually executes (line 93):
`merged.plot(column="value", ax=ax, cmap=cmap)` — the column name is the
literal `"value"` and no `missing_kwds` are passed. -/
def painPlotCall (cmap : String) : PlotCall :=
  { column := "value", cmap := cmap, missingColor := none, edgeColor := none }

/-- `os.path.join("..", "data", "world.png")` (line 47). -/
def painDefaultOutput : String := "../data/world.png"

/-- The merge of `pain-to-map.py` line 61 on an already-cleaned dataframe:
left join of the (ineffectively) fixed world on `SOV_A3`. -/
def painMergedOf (df2 : DF) (world : List PWRow) (codeCol valueCol : String) :
    List (MRowG PWRow) :=
  leftJoin PWRow.key PWRow.geom (painFixWorld world) (dfValueRows df2 codeCol valueCol)

/-- `generate_map` from the code cleaning onward, on the cleaned dataframe. -/
def painAfterClean (df2 : DF) (world : List PWRow)
    (toCrs : String → Except String (Geom → Geom)) (save : String → Bool)
    (outputPath : String) (cmap : String) (valueCol codeCol : String) : PainResult :=
  match projectStep toCrs painCrs (painMergedOf df2 world codeCol valueCol) with
  | Except.error e => PainResult.crash e
  | Except.ok (fb, merged2) =>
      let ok := save outputPath
      PainResult.ret df2 (if ok then [] else ["Failed to save figure"]) (some ok)
        (some { merged := merged2,
                warned := !(missingOf PWRow.key (dfValueRows df2 codeCol valueCol)
                    (painMergedOf df2 world codeCol valueCol)).isEmpty,
                missingCodes := missingOf PWRow.key (dfValueRows df2 codeCol valueCol)
                    (painMergedOf df2 world codeCol valueCol),
                crs := painCrs, crsFallback := fb,
                plot := painPlotCall cmap,
                savedTo := if ok then some outputPath else none })

/-- `generate_map(dataframe, world_path, output_path, cmap, value_col,
code_col)` of `pain-to-map.py` (lines 46-106): resolve the default output
path, check the two columns (print to stderr and return `None` before
loading any geometry if absent), clean the code column in place, merge on
`SOV_A3`, warn, project, plot, save. -/
def painGenerate (df : DF) (world : List PWRow)
    (toCrs : String → Except String (Geom → Geom)) (save : String → Bool)
    (outputPath : Option String) (cmap : String) (valueCol codeCol : String) : PainResult :=
  if codeCol ∈ df.cols ∧ valueCol ∈ df.cols then
    painAfterClean (cleanCodesDF df codeCol) world toCrs save
      (outputPath.getD painDefaultOutput) cmap valueCol codeCol
  else
    PainResult.ret df ["CSV must include columns " ++ codeCol ++ " and " ++ valueCol] none none

/-- A per-row alteration of the code column of the input table (used to
state the case/whitespace invariance claim): row `n`'s string code `s` is
replaced by `f n s`; non-string cells and all other columns are untouched. -/
def alterCodes (df : DF) (codeCol : String) (f : Nat → String → String) : DF :=
  match colIdx df.cols codeCol with
  | some i => { df with rows := df.rows.enum.map (fun p => alterRow i (f p.1) p.2) }
  | none => df
where
  cellAlter (g : String → String) : Cell → Cell
    | Cell.str s => Cell.str (g s)
    | c => c
  alterRow (i : Nat) (g : String → String) (r : List Cell) : List Cell :=
    r.set i (cellAlter g ((r.get? i).getD Cell.null))

/-- `s` is `t` up to letter case and surrounding whitespace: some
decomposition of `s` into whitespace, a core with the same uppercasing as
`t`, and whitespace. -/
def variantOf (s t : String) : Prop :=
  ∃ w u w2, s.data = w ++ u ++ w2 ∧
    (∀ c ∈ w, isPySpace c = true) ∧ (∀ c ∈ w2, isPySpace c = true) ∧
    u.map Char.toUpper = t.data.map Char.toUpper

/-! ### Lemmas about the left merge -/

section JoinLemmas

variable {α : Type} (key : α → String) (geomOf : α → Geom)

theorem joinOne_left_eq {vs : List VRow} {g : α} {m : MRowG α}
    (hm : m ∈ joinOne key geomOf vs g) : m.left = g ∧ m.geom = geomOf g := by
  unfold joinOne at hm
  by_cases hE : (vs.filter (fun v => v.code == key g)).isEmpty
  · rw [if_pos hE] at hm
    simp only [List.mem_singleton] at hm
    subst hm; exact ⟨rfl, rfl⟩
  · rw [if_neg hE] at hm
    obtain ⟨v, _, rfl⟩ := List.mem_map.mp hm
    exact ⟨rfl, rfl⟩

theorem joinOne_ne_nil (vs : List VRow) (g : α) :
    joinOne key geomOf vs g ≠ [] := by
  unfold joinOne
  by_cases hE : (vs.filter (fun v => v.code == key g)).isEmpty
  · rw [if_pos hE]; simp
  · rw [if_neg hE]
    intro h
    rw [List.map_eq_nil_iff] at h
    rw [h] at hE
    exact hE rfl

theorem mem_leftJoin_iff {w : List α} {vs : List VRow} {m : MRowG α} :
    m ∈ leftJoin key geomOf w vs ↔ ∃ g ∈ w, m ∈ joinOne key geomOf vs g := by
  induction w with
  | nil => simp [leftJoin]
  | cons a t ih =>
      simp only [leftJoin, List.mem_append, ih, List.mem_cons]
      constructor
      · rintro (h | ⟨g, hg, hm⟩)
        · exact ⟨a, Or.inl rfl, h⟩
        · exact ⟨g, Or.inr hg, hm⟩
      · rintro ⟨g, (rfl | hg), hm⟩
        · exact Or.inl hm
        · exact Or.inr ⟨g, hg, hm⟩

theorem leftJoin_covers {w : List α} {vs : List VRow} {g : α} (hg : g ∈ w) :
    ∃ m ∈ leftJoin key geomOf w vs, m.left = g := by
  obtain ⟨m, hm⟩ := List.exists_mem_of_ne_nil _ (joinOne_ne_nil key geomOf vs g)
  exact ⟨m, (mem_leftJoin_iff key geomOf).mpr ⟨g, hg, hm⟩, (joinOne_left_eq key geomOf hm).1⟩

theorem joinOne_value_cases {vs : List VRow} {g : α} {m : MRowG α}
    (hm : m ∈ joinOne key geomOf vs g) :
    (m.rcode = none ∧ m.value = none ∧ ∀ v ∈ vs, v.code ≠ key g) ∨
      (∃ v ∈ vs, v.code = key g ∧ m = ⟨g, geomOf g, some v.code, v.value⟩) := by
  unfold joinOne at hm
  by_cases hE : (vs.filter (fun v => v.code == key g)).isEmpty
  · rw [if_pos hE] at hm
    simp only [List.mem_singleton] at hm
    subst hm
    refine Or.inl ⟨rfl, rfl, fun v hv hcode => ?_⟩
    rw [List.isEmpty_iff] at hE
    have : v ∈ vs.filter (fun v => v.code == key g) :=
      List.mem_filter.mpr ⟨hv, beq_iff_eq.mpr hcode⟩
    rw [hE] at this
    exact absurd this (List.not_mem_nil v)
  · rw [if_neg hE] at hm
    obtain ⟨v, hv, rfl⟩ := List.mem_map.mp hm
    obtain ⟨hv1, hv2⟩ := List.mem_filter.mp hv
    exact Or.inr ⟨v, hv1, beq_iff_eq.mp hv2, rfl⟩

/-- Merged rows whose key matches no value row carry `NaN` in the brought-in
columns. -/
theorem leftJoin_unmatched_null {w : List α} {vs : List VRow} {m : MRowG α}
    (hm : m ∈ leftJoin key geomOf w vs)
    (hno : ∀ v ∈ vs, v.code ≠ key m.left) : m.value = none ∧ m.rcode = none := by
  obtain ⟨g, _, hj⟩ := (mem_leftJoin_iff key geomOf).mp hm
  obtain ⟨hleft, _⟩ := joinOne_left_eq key geomOf hj
  rcases joinOne_value_cases key geomOf hj with ⟨h1, h2, _⟩ | ⟨v, hv, hcode, rfl⟩
  · exact ⟨h2, h1⟩
  · exact absurd hcode (by simpa [hleft] using hno v hv)

/-- Every (geometry row, matching value row) pair contributes its merged
row. -/
theorem leftJoin_pair_mem {w : List α} {vs : List VRow} {g : α} {v : VRow}
    (hg : g ∈ w) (hv : v ∈ vs) (hcode : v.code = key g) :
    (⟨g, geomOf g, some v.code, v.value⟩ : MRowG α) ∈ leftJoin key geomOf w vs := by
  refine (mem_leftJoin_iff key geomOf).mpr ⟨g, hg, ?_⟩
  unfold joinOne
  have hmem : v ∈ vs.filter (fun v => v.code == key g) :=
    List.mem_filter.mpr ⟨hv, beq_iff_eq.mpr hcode⟩
  have hne : ¬ (vs.filter (fun v => v.code == key g)).isEmpty = true := by
    intro hE
    rw [List.isEmpty_iff] at hE
    rw [hE] at hmem
    exact absurd hmem (List.not_mem_nil v)
  rw [if_neg hne]
  exact List.mem_map.mpr ⟨v, hmem, rfl⟩

/-- Conversely, every matched merged row is the image of such a pair. -/
theorem leftJoin_matched_inv {w : List α} {vs : List VRow} {m : MRowG α}
    (hm : m ∈ leftJoin key geomOf w vs) (hr : m.rcode.isSome) :
    ∃ g ∈ w, ∃ v ∈ vs, v.code = key g ∧ m = ⟨g, geomOf g, some v.code, v.value⟩ := by
  obtain ⟨g, hg, hj⟩ := (mem_leftJoin_iff key geomOf).mp hm
  rcases joinOne_value_cases key geomOf hj with ⟨h1, _, _⟩ | ⟨v, hv, hcode, rfl⟩
  · rw [h1] at hr; exact absurd hr (by simp)
  · exact ⟨g, hg, v, hv, hcode, rfl⟩

/-- Size of one geometry row's contribution: the number of matching value
rows, or a single null row when there is none. -/
theorem joinOne_length {vs : List VRow} {g : α} :
    (joinOne key geomOf vs g).length =
      max 1 (vs.countP (fun v => v.code == key g)) := by
  unfold joinOne
  rw [List.countP_eq_length_filter]
  by_cases hE : (vs.filter (fun v => v.code == key g)).isEmpty
  · rw [if_pos hE]
    rw [List.isEmpty_iff] at hE
    rw [hE]
    simp
  · rw [if_neg hE, List.length_map]
    have hne : vs.filter (fun v => v.code == key g) ≠ [] := by
      intro h0
      apply hE
      rw [h0]
      rfl
    have hpos : 0 < (vs.filter (fun v => v.code == key g)).length :=
      List.length_pos.mpr hne
    omega

/-- Total size of the merge: one row per (geometry row, matching value row)
pair, counting a lone null row for matchless geometry rows. -/
theorem leftJoin_length {w : List α} {vs : List VRow} :
    (leftJoin key geomOf w vs).length =
      (w.map (fun g => max 1 (vs.countP (fun v => v.code == key g)))).sum := by
  induction w with
  | nil => rfl
  | cons a t ih =>
      simp only [leftJoin, List.length_append, List.map_cons, List.sum_cons, ih,
        joinOne_length]

end JoinLemmas

/-! ### Lemmas about the warning computation -/

theorem strMem_iff {c : String} {l : List String} : strMem c l = true ↔ c ∈ l := by
  unfold strMem
  rw [List.any_eq_true]
  constructor
  · rintro ⟨x, hx, hbeq⟩
    rw [beq_iff_eq.mp hbeq] at hx
    exact hx
  · intro h
    exact ⟨c, h, beq_iff_eq.mpr rfl⟩

theorem mem_matchedOf_iff {α : Type} (key : α → String) {merged : List (MRowG α)}
    {c : String} :
    c ∈ matchedOf key merged ↔ ∃ m ∈ merged, m.value.isSome ∧ key m.left = c := by
  unfold matchedOf
  rw [List.mem_dedup, List.mem_map]
  constructor
  · rintro ⟨m, hm, rfl⟩
    obtain ⟨hm1, hm2⟩ := List.mem_filter.mp hm
    exact ⟨m, hm1, hm2, rfl⟩
  · rintro ⟨m, hm, hs, rfl⟩
    exact ⟨m, List.mem_filter.mpr ⟨hm, hs⟩, rfl⟩

/-- The codes the warning names are exactly the provided codes with no
non-null merged row. -/
theorem mem_missingOf_iff {α : Type} (key : α → String) {vs : List VRow}
    {merged : List (MRowG α)} {c : String} :
    c ∈ missingOf key vs merged ↔
      c ∈ providedOf vs ∧ ∀ m ∈ merged, key m.left = c → m.value = none := by
  unfold missingOf
  rw [List.mem_filter]
  constructor
  · rintro ⟨hp, hb⟩
    refine ⟨hp, fun m hm hk => ?_⟩
    rw [Bool.not_eq_true'] at hb
    by_contra hval
    have hs : m.value.isSome := Option.ne_none_iff_isSome.mp hval
    have : c ∈ matchedOf key merged := (mem_matchedOf_iff key).mpr ⟨m, hm, hs, hk⟩
    rw [strMem_iff.mpr this] at hb
    cases hb
  · rintro ⟨hp, hnone⟩
    refine ⟨hp, ?_⟩
    rw [Bool.not_eq_true', ← Bool.not_eq_true]
    intro hsm
    obtain ⟨m, hm, hs, hk⟩ := (mem_matchedOf_iff key).mp (strMem_iff.mp hsm)
    rw [hnone m hm hk] at hs
    cases hs

/-- The warning fires iff some provided code has no non-null merged row. -/
theorem missingOf_ne_nil_iff {α : Type} (key : α → String) {vs : List VRow}
    {merged : List (MRowG α)} :
    (!(missingOf key vs merged).isEmpty) = true ↔
      ∃ c ∈ providedOf vs, ∀ m ∈ merged, key m.left = c → m.value = none := by
  rw [Bool.not_eq_true', List.isEmpty_eq_false_iff_exists_mem]
  constructor
  · rintro ⟨c, hc⟩
    obtain ⟨hp, hn⟩ := (mem_missingOf_iff key).mp hc
    exact ⟨c, hp, hn⟩
  · rintro ⟨c, hp, hn⟩
    exact ⟨c, (mem_missingOf_iff key).mpr ⟨hp, hn⟩⟩

/-! ### Lemmas about code normalisation -/

theorem space_toUpper {c : Char} (h : isPySpace c = true) : Char.toUpper c = c := by
  simp only [isPySpace, Bool.or_eq_true, beq_iff_eq] at h
  rcases h with ((((rfl | rfl) | rfl) | rfl) | rfl) | rfl <;> decide

theorem map_toUpper_of_space {w : List Char} (h : ∀ c ∈ w, isPySpace c = true) :
    w.map Char.toUpper = w := by
  induction w with
  | nil => rfl
  | cons a t ih =>
      simp only [List.map_cons]
      rw [space_toUpper (h a (List.mem_cons_self a t)),
        ih (fun c hc => h c (List.mem_cons_of_mem a hc))]

theorem dropWhile_append_all {p : Char → Bool} {w l : List Char}
    (h : ∀ c ∈ w, p c = true) : (w ++ l).dropWhile p = l.dropWhile p := by
  induction w with
  | nil => rfl
  | cons a t ih =>
      rw [List.cons_append, List.dropWhile_cons_of_pos (h a (List.mem_cons_self a t))]
      exact ih (fun c hc => h c (List.mem_cons_of_mem a hc))

theorem dropWhile_append_of_ne_nil {p : Char → Bool} {u w2 : List Char}
    (h : u.dropWhile p ≠ []) : (u ++ w2).dropWhile p = u.dropWhile p ++ w2 := by
  induction u with
  | nil => exact absurd rfl h
  | cons a t ih =>
      by_cases hp : p a
      · rw [List.cons_append, List.dropWhile_cons_of_pos hp,
          List.dropWhile_cons_of_pos hp]
        rw [List.dropWhile_cons_of_pos hp] at h
        exact ih h
      · rw [List.cons_append, List.dropWhile_cons_of_neg hp,
          List.dropWhile_cons_of_neg hp, List.cons_append]

/-- `strip` removes whatever whitespace surrounds the core of the string. -/
theorem pyStrip_affix {w u w2 : List Char}
    (hw : ∀ c ∈ w, isPySpace c = true) (hw2 : ∀ c ∈ w2, isPySpace c = true) :
    pyStrip (w ++ u ++ w2) = pyStrip u := by
  unfold pyStrip
  rw [List.append_assoc, dropWhile_append_all hw]
  by_cases hu : u.dropWhile isPySpace = []
  · have hall : ∀ c ∈ u, isPySpace c = true := by
      intro c hc
      exact List.dropWhile_eq_nil_iff.mp hu c hc
    have h2 : (u ++ w2).dropWhile isPySpace = [] := by
      rw [dropWhile_append_all hall]
      exact List.dropWhile_eq_nil_iff.mpr hw2
    rw [h2, hu]
  · rw [dropWhile_append_of_ne_nil hu, List.reverse_append,
      dropWhile_append_all (fun c hc => hw2 c (List.mem_reverse.mp hc))]

/-- Normalisation identifies case/whitespace variants. -/
theorem variantOf_cleanCode {s t : String} (h : variantOf s t) :
    cleanCode s = cleanCode t := by
  obtain ⟨w, u, w2, hdecomp, hw, hw2, hu⟩ := h
  unfold cleanCode
  rw [hdecomp, List.map_append, List.map_append,
    map_toUpper_of_space hw, map_toUpper_of_space hw2, hu,
    pyStrip_affix hw hw2]

/-! ### Invariance of the pipelines under case/whitespace changes -/

theorem get?_set_lt {α : Type} :
    ∀ (l : List α) (i : Nat) (a : α), i < l.length → (l.set i a).get? i = some a
  | [], i, _, h => absurd h (by simp)
  | _ :: _, 0, _, _ => rfl
  | b :: t, i + 1, a, h => by
      simp only [List.set, List.get?]
      exact get?_set_lt t i a (by simpa using h)

theorem set_oob {α : Type} :
    ∀ (l : List α) (i : Nat) (a : α), l.length ≤ i → l.set i a = l
  | [], _, _, _ => rfl
  | _ :: _, 0, _, h => absurd h (by simp)
  | b :: t, i + 1, a, h => by
      simp only [List.set]
      rw [set_oob t i a (by simpa using h)]

/-- Normalising after altering a code's case/whitespace equals normalising
the original row. -/
theorem cleanRow_alterRow {i : Nat} {g : String → String} {r : List Cell}
    (hg : ∀ s, variantOf (g s) s) :
    cleanRow i (alterCodes.alterRow i g r) = cleanRow i r := by
  by_cases hlt : i < r.length
  · unfold alterCodes.alterRow cleanRow
    rw [get?_set_lt r i _ hlt, List.set_set]
    cases hc : (r.get? i).getD Cell.null with
    | str s =>
        simp only [alterCodes.cellAlter, Option.getD_some, pyAstypeStr]
        rw [variantOf_cleanCode (hg s)]
    | num n => rfl
    | null => rfl
  · unfold alterCodes.alterRow
    rw [set_oob r i _ (Nat.le_of_not_lt hlt)]

theorem alterCodes_cols (df : DF) (codeCol : String) (f : Nat → String → String) :
    (alterCodes df codeCol f).cols = df.cols := by
  unfold alterCodes
  cases colIdx df.cols codeCol with
  | some i => rfl
  | none => rfl

theorem enumFrom_map_eq {α β : Type} {F : Nat × α → β} {G : α → β}
    (h : ∀ n a, F (n, a) = G a) :
    ∀ (k : Nat) (l : List α), (List.enumFrom k l).map F = l.map G := by
  intro k l
  induction l generalizing k with
  | nil => rfl
  | cons a t ih =>
      simp only [List.enumFrom, List.map_cons, h, ih]

/-- Cleaning absorbs any per-row case/whitespace alteration of the code
column. -/
theorem cleanCodesDF_alterCodes (df : DF) (codeCol : String)
    (f : Nat → String → String) (hf : ∀ n s, variantOf (f n s) s) :
    cleanCodesDF (alterCodes df codeCol f) codeCol = cleanCodesDF df codeCol := by
  cases hidx : colIdx df.cols codeCol with
  | none =>
      unfold alterCodes
      rw [hidx]
  | some i =>
      have hcols : (alterCodes df codeCol f).cols = df.cols := alterCodes_cols df codeCol f
      unfold cleanCodesDF
      rw [hcols, hidx]
      unfold alterCodes
      rw [hidx]
      simp only [List.map_map]
      unfold List.enum
      exact congrArg (fun rs => DF.mk df.cols rs)
        (enumFrom_map_eq (fun n a => cleanRow_alterRow (fun s => hf n s)) 0 df.rows)

/-! ### Evaluation lemmas for the two pipelines -/

/-- The dataframe after the in-place code normalisation of
`color_world_map.py` line 100. -/
def colorClean (df : DF) (cfg : ColorCfg) : DF := cleanCodesDF df cfg.codeCol

/-- The typed value rows `main` merges (post-normalisation). -/
def colorVRows (df : DF) (cfg : ColorCfg) : List VRow :=
  dfValueRows (colorClean df cfg) cfg.codeCol cfg.valueCol

/-- The merged table of `color_world_map.py` before reprojection. -/
def colorMergedPre (df : DF) (world : List WRow) (cfg : ColorCfg) : List (MRowG WRow) :=
  colorMergedOf (colorClean df cfg) world cfg

/-- The `missing_codes` list of `color_world_map.py` line 112. -/
def colorMissing (df : DF) (world : List WRow) (cfg : ColorCfg) : List String :=
  missingOf WRow.key (colorVRows df cfg) (colorMergedPre df world cfg)

/-- Reprojection applied to every merged row's geometry. -/
def projRows {α : Type} (f : Geom → Geom) (t : List (MRowG α)) : List (MRowG α) :=
  t.map (fun m => { m with geom := f m.geom })

theorem colorWorldMain_ok (df : DF) (world : List WRow)
    (toCrs : String → Except String (Geom → Geom)) (cfg : ColorCfg) (f : Geom → Geom)
    (hcols : cfg.codeCol ∈ df.cols ∧ cfg.valueCol ∈ df.cols)
    (htoCrs : toCrs (projCrs cfg) = Except.ok f)
    (hscheme : cfg.scheme = none) :
    colorWorldMain df world toCrs cfg = MainResult.ok
      { merged := projRows f (colorMergedPre df world cfg),
        warned := !(colorMissing df world cfg).isEmpty,
        missingCodes := colorMissing df world cfg,
        crs := projCrs cfg, crsFallback := false, classifier := none,
        plot := colorPlot cfg cfg.valueCol } := by
  unfold colorWorldMain
  rw [if_pos hcols]
  have hstep : projectStep toCrs (projCrs cfg)
      (colorMergedOf (cleanCodesDF df cfg.codeCol) world cfg) =
      Except.ok (false, projRows f (colorMergedPre df world cfg)) := by
    unfold projectStep
    rw [htoCrs]
    rfl
  unfold colorAfterClean
  rw [hstep, hscheme]
  rfl

/-- Same, for a selected CRS that `to_crs` rejects: the run warns, falls
back to PlateCarree and continues. -/
theorem colorWorldMain_fallback (df : DF) (world : List WRow)
    (toCrs : String → Except String (Geom → Geom)) (cfg : ColorCfg)
    (e : String) (f : Geom → Geom)
    (hcols : cfg.codeCol ∈ df.cols ∧ cfg.valueCol ∈ df.cols)
    (hfail : toCrs (projCrs cfg) = Except.error e)
    (hfb : toCrs "EPSG:4326" = Except.ok f)
    (hscheme : cfg.scheme = none) :
    colorWorldMain df world toCrs cfg = MainResult.ok
      { merged := projRows f (colorMergedPre df world cfg),
        warned := !(colorMissing df world cfg).isEmpty,
        missingCodes := colorMissing df world cfg,
        crs := projCrs cfg, crsFallback := true, classifier := none,
        plot := colorPlot cfg cfg.valueCol } := by
  unfold colorWorldMain
  rw [if_pos hcols]
  have hstep : projectStep toCrs (projCrs cfg)
      (colorMergedOf (cleanCodesDF df cfg.codeCol) world cfg) =
      Except.ok (true, projRows f (colorMergedPre df world cfg)) := by
    unfold projectStep
    rw [hfail, hfb]
    rfl
  unfold colorAfterClean
  rw [hstep, hscheme]
  rfl

/-- The cleaned dataframe, value rows, pre-projection merge and missing
codes of `generate_map`. -/
def painClean (df : DF) (codeCol : String) : DF := cleanCodesDF df codeCol

/-- The typed value rows `generate_map` merges. -/
def painVRows (df : DF) (codeCol valueCol : String) : List VRow :=
  dfValueRows (painClean df codeCol) codeCol valueCol

/-- The merged table of `pain-to-map.py` before reprojection. -/
def painMergedPre (df : DF) (world : List PWRow) (codeCol valueCol : String) :
    List (MRowG PWRow) :=
  painMergedOf (painClean df codeCol) world codeCol valueCol

/-- The `missing_codes` list of `pain-to-map.py` line 66. -/
def painMissing (df : DF) (world : List PWRow) (codeCol valueCol : String) : List String :=
  missingOf PWRow.key (painVRows df codeCol valueCol) (painMergedPre df world codeCol valueCol)

theorem painGenerate_ok (df : DF) (world : List PWRow)
    (toCrs : String → Except String (Geom → Geom)) (save : String → Bool)
    (outputPath : Option String) (cmap : String) (valueCol codeCol : String)
    (f : Geom → Geom)
    (hcols : codeCol ∈ df.cols ∧ valueCol ∈ df.cols)
    (htoCrs : toCrs painCrs = Except.ok f) :
    painGenerate df world toCrs save outputPath cmap valueCol codeCol =
      PainResult.ret (painClean df codeCol)
        (if save (outputPath.getD painDefaultOutput) then [] else ["Failed to save figure"])
        (some (save (outputPath.getD painDefaultOutput)))
        (some { merged := projRows f (painMergedPre df world codeCol valueCol),
                warned := !(painMissing df world codeCol valueCol).isEmpty,
                missingCodes := painMissing df world codeCol valueCol,
                crs := painCrs, crsFallback := false,
                plot := painPlotCall cmap,
                savedTo := if save (outputPath.getD painDefaultOutput) then
                    some (outputPath.getD painDefaultOutput) else none }) := by
  unfold painGenerate
  rw [if_pos hcols]
  have hstep : projectStep toCrs painCrs
      (painMergedOf (cleanCodesDF df codeCol) world codeCol valueCol) =
      Except.ok (false, projRows f (painMergedPre df world codeCol valueCol)) := by
    unfold projectStep
    rw [htoCrs]
    rfl
  unfold painAfterClean
  rw [hstep]
  rfl

/-- Fallback variant for `generate_map` (unreachable in the shipped script,
where the selected CRS is already PlateCarree, but faithful to its
`try`/`except`). -/
theorem painGenerate_fallback (df : DF) (world : List PWRow)
    (toCrs : String → Except String (Geom → Geom)) (save : String → Bool)
    (outputPath : Option String) (cmap : String) (valueCol codeCol : String)
    (e : String) (f : Geom → Geom)
    (hcols : codeCol ∈ df.cols ∧ valueCol ∈ df.cols)
    (hfail : toCrs painCrs = Except.error e)
    (hfb : toCrs "EPSG:4326" = Except.ok f) :
    painGenerate df world toCrs save outputPath cmap valueCol codeCol =
      PainResult.ret (painClean df codeCol)
        (if save (outputPath.getD painDefaultOutput) then [] else ["Failed to save figure"])
        (some (save (outputPath.getD painDefaultOutput)))
        (some { merged := projRows f (painMergedPre df world codeCol valueCol),
                warned := !(painMissing df world codeCol valueCol).isEmpty,
                missingCodes := painMissing df world codeCol valueCol,
                crs := painCrs, crsFallback := true,
                plot := painPlotCall cmap,
                savedTo := if save (outputPath.getD painDefaultOutput) then
                    some (outputPath.getD painDefaultOutput) else none }) := by
  unfold painGenerate
  rw [if_pos hcols]
  have hstep : projectStep toCrs painCrs
      (painMergedOf (cleanCodesDF df codeCol) world codeCol valueCol) =
      Except.ok (true, projRows f (painMergedPre df world codeCol valueCol)) := by
    unfold projectStep
    rw [hfail, hfb]
    rfl
  unfold painAfterClean
  rw [hstep]
  rfl

/-- Evaluation of `main` when a classification scheme is requested, the
classifier series is non-empty and the dispatch succeeds. -/
theorem colorWorldMain_scheme_ok (df : DF) (world : List WRow)
    (toCrs : String → Except String (Geom → Geom)) (cfg : ColorCfg)
    (f : Geom → Geom) (s : String) (cl : ClassifierSpec)
    (hcols : cfg.codeCol ∈ df.cols ∧ cfg.valueCol ∈ df.cols)
    (htoCrs : toCrs (projCrs cfg) = Except.ok f)
    (hscheme : cfg.scheme = some s)
    (hvalid : (validOf (projRows f (colorMergedPre df world cfg))).isEmpty = false)
    (hcl : classify_values (validOf (projRows f (colorMergedPre df world cfg)))
        cfg.scheme cfg.k = some cl) :
    colorWorldMain df world toCrs cfg = MainResult.ok
      { merged := projRows f (colorMergedPre df world cfg),
        warned := !(colorMissing df world cfg).isEmpty,
        missingCodes := colorMissing df world cfg,
        crs := projCrs cfg, crsFallback := false, classifier := some cl,
        plot := colorPlot cfg "_class" } := by
  unfold colorWorldMain
  rw [if_pos hcols]
  have hstep : projectStep toCrs (projCrs cfg)
      (colorMergedOf (cleanCodesDF df cfg.codeCol) world cfg) =
      Except.ok (false, projRows f (colorMergedPre df world cfg)) := by
    unfold projectStep
    rw [htoCrs]
    rfl
  unfold colorAfterClean
  rw [hstep, hscheme]
  have hvalid2 :
      ¬ (validOf (projRows f (colorMergedPre df world cfg))).isEmpty = true := by
    rw [hvalid]
    exact Bool.false_ne_true
  rw [hscheme] at hcl
  show (if (validOf (projRows f (colorMergedPre df world cfg))).isEmpty = true
      then MainResult.exit 1 "No numeric values to classify."
      else match classify_values (validOf (projRows f (colorMergedPre df world cfg)))
          (some s) cfg.k with
        | none => MainResult.crash "AttributeError"
        | some cl =>
            MainResult.ok
              { merged := projRows f (colorMergedPre df world cfg),
                warned := !(colorMissing df world cfg).isEmpty,
                missingCodes := colorMissing df world cfg,
                crs := projCrs cfg, crsFallback := false, classifier := some cl,
                plot := colorPlot cfg "_class" }) = _
  rw [if_neg hvalid2, hcl]

/-- `classify_values` never consults the `k` flag for the std-mean family. -/
theorem classify_values_stdMean (series : List Cell) (k : Nat) (s : String)
    (hs : s = "std_mean" ∨ s = "std" ∨ s = "zscore") :
    classify_values series (some s) k = some (ClassifierSpec.stdMean series) := by
  rcases hs with rfl | rfl | rfl <;> rfl

/-- Key membership in the projection dictionary yields a hit. -/
theorem lookupStr_mem {l : List (String × String)} {k : String}
    (h : k ∈ l.map Prod.fst) : ∃ v, lookupStr l k = some v := by
  induction l with
  | nil => simp at h
  | cons a t ih =>
      by_cases hk : a.1 == k
      · exact ⟨a.2, by unfold lookupStr; rw [if_pos hk]⟩
      · have : k ∈ t.map Prod.fst := by
          simp only [List.map_cons, List.mem_cons] at h
          rcases h with h | h
          · exact absurd (beq_iff_eq.mpr h.symm) hk
          · exact h
        obtain ⟨v, hv⟩ := ih this
        exact ⟨v, by unfold lookupStr; rw [if_neg hk]; exact hv⟩

/-! ### Result projections and concrete fixtures -/

/-- Whether a `main` run completed (did not exit or crash). -/
def isOkResult : MainResult → Bool
  | MainResult.ok _ => true
  | _ => false

/-- The render observation of a `generate_map` run, if any. -/
def painOutOf : PainResult → Option PainOut
  | PainResult.ret _ _ _ o => o
  | PainResult.crash _ => none

/-- A fixed geometry transform used as the test reprojection. -/
def exShift : Geom → Geom := fun g => g + 1

/-- A reprojection stub that accepts every CRS. -/
def exToCrsOk : String → Except String (Geom → Geom) := fun _ => Except.ok exShift

/-- A reprojection stub that accepts only PlateCarree. -/
def exToCrsFail : String → Except String (Geom → Geom) := fun c =>
  if c == "EPSG:4326" then Except.ok exShift else Except.error "proj error"

/-- A save stub that always succeeds. -/
def exSaveOk : String → Bool := fun _ => true

/-- A small `naturalearth_lowres`-shaped world for `color_world_map.py`:
France and Norway carry the `-99` placeholder the hardcoded fix repairs. -/
def exWorld : List WRow :=
  [⟨"United States of America", "USA", 1⟩, ⟨"France", "-99", 2⟩, ⟨"Germany", "DEU", 3⟩]

/-- A value table for `color_world_map.py` with a mixed-case padded code, a
code matching only after the France fix, and an unmatched code. -/
def exDF : DF :=
  ⟨["iso_a3", "value"],
   [[Cell.str " usa ", Cell.num 10], [Cell.str "fra", Cell.num 3],
    [Cell.str "ZZZ", Cell.num 7]]⟩

/-- A small Natural Earth admin-0-shaped world for `pain-to-map.py`. -/
def exPWorld : List PWRow :=
  [⟨"France", "FR1", none, 1⟩, ⟨"Germany", "DEU", none, 2⟩]

/-- A value table for `pain-to-map.py`: one matching and one unmatched
code. -/
def exPDF : DF :=
  ⟨["sov_a3", "value"], [[Cell.str "fr1", Cell.num 5], [Cell.str "xxx", Cell.num 9]]⟩

/-! ### Claim theorems -/

/-- C1: for every input value table, the merge performed by each script is a
left join of the geometry table with the value table on the country-code
column (`iso_a3` in `color_world_map.py`, `SOV_A3` in `pain-to-map.py`,
against the CSV code column): every geometry row appears in the merged
table, and any merged row whose join key has no matching row in the value
table carries a null in the value column. -/
theorem c1_merge_is_left_join :
    ∀ (df : DF) (world : List WRow) (cfg : ColorCfg)
      (pdf : DF) (pworld : List PWRow) (codeCol valueCol : String),
      (∀ g ∈ colorFixWorld world, ∃ m ∈ colorMergedPre df world cfg, m.left = g) ∧
      (∀ m ∈ colorMergedPre df world cfg,
        (∀ v ∈ colorVRows df cfg, v.code ≠ m.left.key) → m.value = none) ∧
      (∀ g ∈ painFixWorld pworld,
        ∃ m ∈ painMergedPre pdf pworld codeCol valueCol, m.left = g) ∧
      (∀ m ∈ painMergedPre pdf pworld codeCol valueCol,
        (∀ v ∈ painVRows pdf codeCol valueCol, v.code ≠ m.left.key) → m.value = none) := by
  intro df world cfg pdf pworld codeCol valueCol
  refine ⟨fun g hg => ?_, fun m hm hno => ?_, fun g hg => ?_, fun m hm hno => ?_⟩
  · exact leftJoin_covers WRow.key WRow.geom hg
  · exact (leftJoin_unmatched_null WRow.key WRow.geom hm hno).1
  · exact leftJoin_covers PWRow.key PWRow.geom hg
  · exact (leftJoin_unmatched_null PWRow.key PWRow.geom hm hno).1

/-- Witness for C1 on concrete tables: the United States geometry row
survives into the merge, and the all-null France row (key `-99` never
provided) carries a null value. -/
theorem c1_witness :
    (∃ m ∈ colorMergedPre exDF exWorld colorDefaults,
      m.left = (⟨"United States of America", "USA", 1⟩ : WRow)) ∧
    (MRowG.mk (⟨"Germany", "DEU", none, 2⟩ : PWRow) 2 none none).value = none := by
  refine ⟨?_, ?_⟩
  · exact (c1_merge_is_left_join exDF exWorld colorDefaults exPDF exPWorld "sov_a3" "value").1
      ⟨"United States of America", "USA", 1⟩ (by decide)
  · exact (c1_merge_is_left_join exDF exWorld colorDefaults exPDF exPWorld
      "sov_a3" "value").2.2.2 (MRowG.mk ⟨"Germany", "DEU", none, 2⟩ 2 none none)
      (by decide) (by decide)

/-- C3 (observed divergence): on a Natural Earth admin-0 shaped table (the
uppercase `SOVEREIGNT` and `SOV_A3` columns the script itself reads),
`_load_world` of `pain-to-map.py` leaves the `SOV_A3` join key unchanged —
France keeps `FR1` — and instead appends a fresh lowercase `sov_a3` column
that nothing else uses; `load_world` of `color_world_map.py`, by contrast,
does rewrite its `iso_a3` join key as the claim describes. -/
theorem c3_load_world_divergence :
    painLoadWorldDF
        (DF.mk ["SOVEREIGNT", "SOV_A3"]
          [[Cell.str "France", Cell.str "FR1"],
           [Cell.str "Norway", Cell.str "NOR1"],
           [Cell.str "Somaliland", Cell.str "SOM"],
           [Cell.str "Germany", Cell.str "DEU"]]) =
      DF.mk ["SOVEREIGNT", "SOV_A3", "sov_a3"]
        [[Cell.str "France", Cell.str "FR1", Cell.str "FRA"],
         [Cell.str "Norway", Cell.str "NOR1", Cell.str "NOR"],
         [Cell.str "Somaliland", Cell.str "SOM", Cell.str "SOL"],
         [Cell.str "Germany", Cell.str "DEU", Cell.null]] ∧
    colorLoadWorldDF
        (DF.mk ["name", "iso_a3"]
          [[Cell.str "France", Cell.str "-99"],
           [Cell.str "Norway", Cell.str "-99"],
           [Cell.str "Somaliland", Cell.str "-99"],
           [Cell.str "Germany", Cell.str "DEU"]]) =
      DF.mk ["name", "iso_a3"]
        [[Cell.str "France", Cell.str "FRA"],
         [Cell.str "Norway", Cell.str "NOR"],
         [Cell.str "Somaliland", Cell.str "SOL"],
         [Cell.str "Germany", Cell.str "DEU"]] := by
  decide

/-- C10: if the input table lacks the code column or the value column,
`main` of `color_world_map.py` exits with status 1 and the
`CSV must include columns` message, while `generate_map` of
`pain-to-map.py` prints the same message to stderr and returns `None` — for
every geometry table alike (so before loading any geometry), leaving the
input dataframe unmodified and producing no render/output image. -/
theorem c10_missing_columns :
    ∀ (df : DF),
      (∀ (cfg : ColorCfg) (world : List WRow)
          (toCrs : String → Except String (Geom → Geom)),
        ¬ (cfg.codeCol ∈ df.cols ∧ cfg.valueCol ∈ df.cols) →
        colorWorldMain df world toCrs cfg =
          MainResult.exit 1
            ("CSV must include columns " ++ cfg.codeCol ++ " and " ++ cfg.valueCol)) ∧
      (∀ (world : List PWRow) (toCrs : String → Except String (Geom → Geom))
          (save : String → Bool) (outputPath : Option String)
          (cmap valueCol codeCol : String),
        ¬ (codeCol ∈ df.cols ∧ valueCol ∈ df.cols) →
        painGenerate df world toCrs save outputPath cmap valueCol codeCol =
          PainResult.ret df
            ["CSV must include columns " ++ codeCol ++ " and " ++ valueCol] none none) := by
  intro df
  constructor
  · intro cfg world toCrs h
    unfold colorWorldMain
    rw [if_neg h]
  · intro world toCrs save outputPath cmap valueCol codeCol h
    unfold painGenerate
    rw [if_neg h]

/-- Witness for C10: a one-column table is rejected the same way by both
scripts, with the dataframe returned untouched and no output. -/
theorem c10_witness :
    colorWorldMain (DF.mk ["iso_a3"] [[Cell.str "USA"]]) exWorld exToCrsOk colorDefaults =
      MainResult.exit 1 "CSV must include columns iso_a3 and value" ∧
    painGenerate (DF.mk ["iso_a3"] [[Cell.str "USA"]]) exPWorld exToCrsOk exSaveOk none
        "Greys" "value" "sov_a3" =
      PainResult.ret (DF.mk ["iso_a3"] [[Cell.str "USA"]])
        ["CSV must include columns sov_a3 and value"] none none := by
  constructor
  · exact (c10_missing_columns (DF.mk ["iso_a3"] [[Cell.str "USA"]])).1 colorDefaults
      exWorld exToCrsOk (by decide)
  · exact (c10_missing_columns (DF.mk ["iso_a3"] [[Cell.str "USA"]])).2 exPWorld
      exToCrsOk exSaveOk none "Greys" "value" "sov_a3" (by decide)

/-- The default configuration with a quantiles classification scheme
requested. -/
def cfgQuantiles : ColorCfg := { colorDefaults with scheme := some "quantiles" }

/-- C2 (counterexample): with a classification scheme requested, unmatched
codes do cause `color_world_map.py` to abort — the very same value table
and flags exit with status 1 against a world that matches no code (all
merged values null, so `values.dropna()` is empty) and complete against a
world that matches it. -/
theorem c2_counterexample :
    colorWorldMain (DF.mk ["iso_a3", "value"] [[Cell.str "ZZZ", Cell.num 7]])
        [⟨"Atlantis", "AAA", 1⟩] exToCrsOk cfgQuantiles =
      MainResult.exit 1 "No numeric values to classify." ∧
    isOkResult (colorWorldMain (DF.mk ["iso_a3", "value"] [[Cell.str "ZZZ", Cell.num 7]])
        [⟨"Zedland", "ZZZ", 1⟩] exToCrsOk cfgQuantiles) = true := by
  decide

/-- C2 (amended): each script emits its warning iff at least one provided
code has no non-null merged row, and the warned set is exactly the set of
such provided codes; unmatched codes never abort `generate_map`, nor `main`
when no classification scheme is requested (with a scheme, a table whose
codes all fail to match exits as `c2_counterexample` shows). -/
theorem c2_amended :
    (∀ (df : DF) (world : List WRow)
        (toCrs : String → Except String (Geom → Geom)) (cfg : ColorCfg) (f : Geom → Geom),
      cfg.codeCol ∈ df.cols ∧ cfg.valueCol ∈ df.cols →
      toCrs (projCrs cfg) = Except.ok f →
      cfg.scheme = none →
      ∃ out, colorWorldMain df world toCrs cfg = MainResult.ok out ∧
        (out.warned = true ↔ ∃ c ∈ providedOf (colorVRows df cfg),
          ∀ m ∈ colorMergedPre df world cfg, m.left.key = c → m.value = none) ∧
        (∀ c, c ∈ out.missingCodes ↔ c ∈ providedOf (colorVRows df cfg) ∧
          ∀ m ∈ colorMergedPre df world cfg, m.left.key = c → m.value = none)) ∧
    (∀ (pdf : DF) (pworld : List PWRow)
        (toCrs : String → Except String (Geom → Geom)) (save : String → Bool)
        (outP : Option String) (cmap vc cc : String) (f : Geom → Geom),
      cc ∈ pdf.cols ∧ vc ∈ pdf.cols →
      toCrs painCrs = Except.ok f →
      ∃ pout, painOutOf (painGenerate pdf pworld toCrs save outP cmap vc cc) = some pout ∧
        (pout.warned = true ↔ ∃ c ∈ providedOf (painVRows pdf cc vc),
          ∀ m ∈ painMergedPre pdf pworld cc vc, m.left.key = c → m.value = none) ∧
        (∀ c, c ∈ pout.missingCodes ↔ c ∈ providedOf (painVRows pdf cc vc) ∧
          ∀ m ∈ painMergedPre pdf pworld cc vc, m.left.key = c → m.value = none)) := by
  constructor
  · intro df world toCrs cfg f hcols htoCrs hscheme
    refine ⟨_, colorWorldMain_ok df world toCrs cfg f hcols htoCrs hscheme, ?_, ?_⟩
    · exact missingOf_ne_nil_iff WRow.key
    · intro c
      exact mem_missingOf_iff WRow.key
  · intro pdf pworld toCrs save outP cmap vc cc f hcols htoCrs
    refine ⟨{ merged := projRows f (painMergedPre pdf pworld cc vc),
              warned := !(painMissing pdf pworld cc vc).isEmpty,
              missingCodes := painMissing pdf pworld cc vc,
              crs := painCrs, crsFallback := false,
              plot := painPlotCall cmap,
              savedTo := if save (outP.getD painDefaultOutput) then
                  some (outP.getD painDefaultOutput) else none }, ?_, ?_, ?_⟩
    · rw [painGenerate_ok pdf pworld toCrs save outP cmap vc cc f hcols htoCrs]
      rfl
    · exact missingOf_ne_nil_iff PWRow.key
    · intro c
      exact mem_missingOf_iff PWRow.key

/-- Witness for `c2_amended` on the concrete fixtures (one unmatched code
in each table). -/
theorem c2_amended_witness :
    (∃ out, colorWorldMain exDF exWorld exToCrsOk colorDefaults = MainResult.ok out ∧
      (out.warned = true ↔ ∃ c ∈ providedOf (colorVRows exDF colorDefaults),
        ∀ m ∈ colorMergedPre exDF exWorld colorDefaults, m.left.key = c → m.value = none) ∧
      (∀ c, c ∈ out.missingCodes ↔ c ∈ providedOf (colorVRows exDF colorDefaults) ∧
        ∀ m ∈ colorMergedPre exDF exWorld colorDefaults, m.left.key = c → m.value = none)) ∧
    (∃ pout, painOutOf (painGenerate exPDF exPWorld exToCrsOk exSaveOk none "Greys"
        "value" "sov_a3") = some pout ∧
      (pout.warned = true ↔ ∃ c ∈ providedOf (painVRows exPDF "sov_a3" "value"),
        ∀ m ∈ painMergedPre exPDF exPWorld "sov_a3" "value", m.left.key = c → m.value = none) ∧
      (∀ c, c ∈ pout.missingCodes ↔ c ∈ providedOf (painVRows exPDF "sov_a3" "value") ∧
        ∀ m ∈ painMergedPre exPDF exPWorld "sov_a3" "value", m.left.key = c → m.value = none)) := by
  constructor
  · exact c2_amended.1 exDF exWorld exToCrsOk colorDefaults exShift (by decide) rfl rfl
  · exact c2_amended.2 exPDF exPWorld exToCrsOk exSaveOk none "Greys" "value" "sov_a3"
      exShift (by decide) rfl

/-- C4 (counterexample): naming the std-mean scheme does not bucket into
`k` classes — `classify_values` constructs `mc.StdMean(series)` without
passing the `--k` value at all, so no classifier carrying `k = 5` results. -/
theorem c4_counterexample :
    ¬ ∃ spec, classify_values [Cell.num 1, Cell.num 2] (some "std_mean") 5 = some spec ∧
      specK spec = some 5 := by
  decide

/-- C4 (amended): when a scheme is named, `main` delegates the non-null
values to the external classifier selected by `classify_values`; the
quantiles, equal-interval and natural-breaks families receive the `--k`
class count (default 5), while the std-mean family is constructed without
it. -/
theorem c4_amended :
    colorDefaults.k = 5 ∧
    (∀ (series : List Cell) (k : Nat) (s : String),
      (s = "quantiles" ∨ s = "quantile" ∨ s = "q") →
      classify_values series (some s) k = some (ClassifierSpec.quantiles series k)) ∧
    (∀ (series : List Cell) (k : Nat) (s : String),
      (s = "equal_interval" ∨ s = "equalinterval" ∨ s = "equal" ∨ s = "ei") →
      classify_values series (some s) k = some (ClassifierSpec.equalInterval series k)) ∧
    (∀ (series : List Cell) (k : Nat) (s : String),
      (s = "natural_breaks" ∨ s = "jenks" ∨ s = "nb") →
      classify_values series (some s) k = some (ClassifierSpec.naturalBreaks series k)) ∧
    (∀ (series : List Cell) (k : Nat) (s : String),
      (s = "std_mean" ∨ s = "std" ∨ s = "zscore") →
      classify_values series (some s) k = some (ClassifierSpec.stdMean series)) ∧
    (∀ (df : DF) (world : List WRow) (toCrs : String → Except String (Geom → Geom))
        (cfg : ColorCfg) (f : Geom → Geom) (s : String) (cl : ClassifierSpec),
      cfg.codeCol ∈ df.cols ∧ cfg.valueCol ∈ df.cols →
      toCrs (projCrs cfg) = Except.ok f →
      cfg.scheme = some s →
      (validOf (projRows f (colorMergedPre df world cfg))).isEmpty = false →
      classify_values (validOf (projRows f (colorMergedPre df world cfg)))
          cfg.scheme cfg.k = some cl →
      ∃ out, colorWorldMain df world toCrs cfg = MainResult.ok out ∧
        out.classifier = some cl ∧ out.plot = colorPlot cfg "_class") := by
  refine ⟨rfl, ?_, ?_, ?_, classify_values_stdMean, ?_⟩
  · intro series k s hs
    rcases hs with rfl | rfl | rfl <;> rfl
  · intro series k s hs
    rcases hs with rfl | rfl | rfl | rfl <;> rfl
  · intro series k s hs
    rcases hs with rfl | rfl | rfl <;> rfl
  · intro df world toCrs cfg f s cl hcols htoCrs hscheme hvalid hcl
    exact ⟨_, colorWorldMain_scheme_ok df world toCrs cfg f s cl hcols htoCrs hscheme
      hvalid hcl, rfl, rfl⟩

/-- Witness for `c4_amended`: the quantiles alias dispatches with `k`, the
std-mean alias without, and the pipeline carries the constructed classifier
of the non-null merged values. -/
theorem c4_amended_witness :
    classify_values [Cell.num 1, Cell.num 2] (some "quantiles") 5 =
      some (ClassifierSpec.quantiles [Cell.num 1, Cell.num 2] 5) ∧
    classify_values [Cell.num 1, Cell.num 2] (some "zscore") 7 =
      some (ClassifierSpec.stdMean [Cell.num 1, Cell.num 2]) ∧
    (∃ out, colorWorldMain exDF exWorld exToCrsOk cfgQuantiles = MainResult.ok out ∧
      out.classifier = some (ClassifierSpec.quantiles [Cell.num 10, Cell.num 3] 5) ∧
      out.plot = colorPlot cfgQuantiles "_class") := by
  refine ⟨?_, ?_, ?_⟩
  · exact c4_amended.2.1 [Cell.num 1, Cell.num 2] 5 "quantiles" (Or.inl rfl)
  · exact c4_amended.2.2.2.2.1 [Cell.num 1, Cell.num 2] 7 "zscore" (Or.inr (Or.inr rfl))
  · exact c4_amended.2.2.2.2.2 exDF exWorld exToCrsOk cfgQuantiles exShift "quantiles"
      (ClassifierSpec.quantiles [Cell.num 10, Cell.num 3] 5) (by decide) rfl rfl
      (by decide) (by decide)

/-- C5 (counterexample): the plot call `pain-to-map.py` executes passes no
`missing_kwds` at all — its missing-color configuration is never used — so
null-valued merged rows (here Germany) are not rendered in `#EEEEEE`. -/
theorem c5_counterexample :
    (painOutOf (painGenerate exPDF exPWorld exToCrsOk exSaveOk none "Greys"
        "value" "sov_a3")).map PainOut.plot = some (painPlotCall "Greys") ∧
    (painPlotCall "Greys").missingColor = none ∧
    ¬ (painPlotCall "Greys").missingColor = some painMissingColor ∧
    ((painOutOf (painGenerate exPDF exPWorld exToCrsOk exSaveOk none "Greys"
        "value" "sov_a3")).map (fun o => o.merged.any (fun m => m.value.isNone))) =
      some true := by
  decide

/-- C5 (amended): `color_world_map.py` renders null-valued rows in the
configured missing color (default `#EEEEEE`) via `missing_kwds`;
`pain-to-map.py` configures the same default but its executed plot call
passes no `missing_kwds`, so its missing rows get no missing color. -/
theorem c5_amended :
    colorDefaults.missingColor = "#EEEEEE" ∧
    (∀ (df : DF) (world : List WRow) (toCrs : String → Except String (Geom → Geom))
        (cfg : ColorCfg) (f : Geom → Geom),
      cfg.codeCol ∈ df.cols ∧ cfg.valueCol ∈ df.cols →
      toCrs (projCrs cfg) = Except.ok f →
      cfg.scheme = none →
      ∃ out, colorWorldMain df world toCrs cfg = MainResult.ok out ∧
        out.plot.missingColor = some cfg.missingColor) ∧
    painMissingColor = "#EEEEEE" ∧
    (painUnusedPlotKwargs "value").missingColor = some painMissingColor ∧
    (∀ (pdf : DF) (pworld : List PWRow)
        (toCrs : String → Except String (Geom → Geom)) (save : String → Bool)
        (outP : Option String) (cmap vc cc : String) (f : Geom → Geom),
      cc ∈ pdf.cols ∧ vc ∈ pdf.cols →
      toCrs painCrs = Except.ok f →
      ∃ pout, painOutOf (painGenerate pdf pworld toCrs save outP cmap vc cc) = some pout ∧
        pout.plot.missingColor = none) := by
  refine ⟨rfl, ?_, rfl, rfl, ?_⟩
  · intro df world toCrs cfg f hcols htoCrs hscheme
    exact ⟨_, colorWorldMain_ok df world toCrs cfg f hcols htoCrs hscheme, rfl⟩
  · intro pdf pworld toCrs save outP cmap vc cc f hcols htoCrs
    refine ⟨{ merged := projRows f (painMergedPre pdf pworld cc vc),
              warned := !(painMissing pdf pworld cc vc).isEmpty,
              missingCodes := painMissing pdf pworld cc vc,
              crs := painCrs, crsFallback := false,
              plot := painPlotCall cmap,
              savedTo := if save (outP.getD painDefaultOutput) then
                  some (outP.getD painDefaultOutput) else none }, ?_, rfl⟩
    rw [painGenerate_ok pdf pworld toCrs save outP cmap vc cc f hcols htoCrs]
    rfl

/-- Witness for `c5_amended` on the concrete fixtures. -/
theorem c5_amended_witness :
    (∃ out, colorWorldMain exDF exWorld exToCrsOk colorDefaults = MainResult.ok out ∧
      out.plot.missingColor = some colorDefaults.missingColor) ∧
    (∃ pout, painOutOf (painGenerate exPDF exPWorld exToCrsOk exSaveOk none "Greys"
        "value" "sov_a3") = some pout ∧ pout.plot.missingColor = none) := by
  constructor
  · exact c5_amended.2.1 exDF exWorld exToCrsOk colorDefaults exShift (by decide) rfl rfl
  · exact c5_amended.2.2.2.2 exPDF exPWorld exToCrsOk exSaveOk none "Greys" "value"
      "sov_a3" exShift (by decide) rfl

/-- C6: before drawing, the merged geometries are reprojected to the chosen
coordinate reference system — the six-entry `PROJECTIONS` map resolves the
`--projection` flag of `color_world_map.py` (the table handed to the plot
call is the reprojected one), while `pain-to-map.py` hardcodes PlateCarree
(`EPSG:4326`). -/
theorem c6_projection_selection :
    PROJECTIONS.length = 6 ∧
    lookupStr PROJECTIONS "PlateCarree" = some "EPSG:4326" ∧
    lookupStr PROJECTIONS "Mercator" = some "EPSG:3395" ∧
    lookupStr PROJECTIONS "Robinson" =
      some "+proj=robin +lon_0=0 +x_0=0 +y_0=0 +datum=WGS84 +units=m +no_defs" ∧
    lookupStr PROJECTIONS "Mollweide" =
      some "+proj=moll +lon_0=0 +x_0=0 +y_0=0 +datum=WGS84 +units=m +no_defs" ∧
    lookupStr PROJECTIONS "EqualEarth" =
      some "+proj=eqearth +lon_0=0 +datum=WGS84 +units=m +no_defs" ∧
    lookupStr PROJECTIONS "WinkelTripel" =
      some "+proj=wintri +lon_0=0 +datum=WGS84 +units=m +no_defs" ∧
    USED_PROJECTION = "PlateCarree" ∧
    painCrs = "EPSG:4326" ∧
    (∀ (df : DF) (world : List WRow) (toCrs : String → Except String (Geom → Geom))
        (cfg : ColorCfg) (f : Geom → Geom),
      cfg.codeCol ∈ df.cols ∧ cfg.valueCol ∈ df.cols →
      cfg.projection ∈ PROJECTIONS.map Prod.fst →
      toCrs (projCrs cfg) = Except.ok f →
      cfg.scheme = none →
      ∃ out, colorWorldMain df world toCrs cfg = MainResult.ok out ∧
        some out.crs = lookupStr PROJECTIONS cfg.projection ∧
        out.merged = projRows f (colorMergedPre df world cfg)) ∧
    (∀ (pdf : DF) (pworld : List PWRow)
        (toCrs : String → Except String (Geom → Geom)) (save : String → Bool)
        (outP : Option String) (cmap vc cc : String) (f : Geom → Geom),
      cc ∈ pdf.cols ∧ vc ∈ pdf.cols →
      toCrs painCrs = Except.ok f →
      ∃ pout, painOutOf (painGenerate pdf pworld toCrs save outP cmap vc cc) = some pout ∧
        pout.crs = "EPSG:4326" ∧
        pout.merged = projRows f (painMergedPre pdf pworld cc vc)) := by
  refine ⟨rfl, rfl, rfl, rfl, rfl, rfl, rfl, rfl, rfl, ?_, ?_⟩
  · intro df world toCrs cfg f hcols hproj htoCrs hscheme
    obtain ⟨v, hv⟩ := lookupStr_mem hproj
    refine ⟨_, colorWorldMain_ok df world toCrs cfg f hcols htoCrs hscheme, ?_, rfl⟩
    show some (projCrs cfg) = lookupStr PROJECTIONS cfg.projection
    unfold projCrs
    rw [hv]
    rfl
  · intro pdf pworld toCrs save outP cmap vc cc f hcols htoCrs
    refine ⟨{ merged := projRows f (painMergedPre pdf pworld cc vc),
              warned := !(painMissing pdf pworld cc vc).isEmpty,
              missingCodes := painMissing pdf pworld cc vc,
              crs := painCrs, crsFallback := false,
              plot := painPlotCall cmap,
              savedTo := if save (outP.getD painDefaultOutput) then
                  some (outP.getD painDefaultOutput) else none }, ?_, rfl, rfl⟩
    rw [painGenerate_ok pdf pworld toCrs save outP cmap vc cc f hcols htoCrs]
    rfl

/-- Witness for `c6_projection_selection`: the default Robinson run draws
the Robinson-projected table; the `pain-to-map.py` run reports
`EPSG:4326`. -/
theorem c6_witness :
    (∃ out, colorWorldMain exDF exWorld exToCrsOk colorDefaults = MainResult.ok out ∧
      some out.crs = lookupStr PROJECTIONS colorDefaults.projection ∧
      out.merged = projRows exShift (colorMergedPre exDF exWorld colorDefaults)) ∧
    (∃ pout, painOutOf (painGenerate exPDF exPWorld exToCrsOk exSaveOk none "Greys"
        "value" "sov_a3") = some pout ∧ pout.crs = "EPSG:4326" ∧
      pout.merged = projRows exShift (painMergedPre exPDF exPWorld "sov_a3" "value")) := by
  constructor
  · exact c6_projection_selection.2.2.2.2.2.2.2.2.2.1 exDF exWorld exToCrsOk colorDefaults
      exShift (by decide) (by decide) rfl rfl
  · exact c6_projection_selection.2.2.2.2.2.2.2.2.2.2 exPDF exPWorld exToCrsOk exSaveOk
      none "Greys" "value" "sov_a3" exShift (by decide) rfl

/-- C7: neither script constrains the code column to be unique — any table
with duplicate codes still completes, and the left merge produces exactly
one merged row per (geometry row, matching value row) pair: the total length
counts every pair (with a single null row for matchless geometry rows),
every pair contributes its row, and every matched row arises from a pair. -/
theorem c7_no_uniqueness :
    (∀ (α : Type) (key : α → String) (geomOf : α → Geom) (w : List α) (vs : List VRow),
      (leftJoin key geomOf w vs).length =
        (w.map (fun g => max 1 (vs.countP (fun v => v.code == key g)))).sum ∧
      (∀ g ∈ w, ∀ v ∈ vs, v.code = key g →
        (MRowG.mk g (geomOf g) (some v.code) v.value) ∈ leftJoin key geomOf w vs) ∧
      (∀ m ∈ leftJoin key geomOf w vs, m.rcode.isSome →
        ∃ g ∈ w, ∃ v ∈ vs, v.code = key g ∧
          m = MRowG.mk g (geomOf g) (some v.code) v.value)) ∧
    (∀ (df : DF) (world : List WRow) (toCrs : String → Except String (Geom → Geom))
        (cfg : ColorCfg) (f : Geom → Geom),
      cfg.codeCol ∈ df.cols ∧ cfg.valueCol ∈ df.cols →
      toCrs (projCrs cfg) = Except.ok f →
      cfg.scheme = none →
      ¬ ((colorVRows df cfg).map VRow.code).Nodup →
      ∃ out, colorWorldMain df world toCrs cfg = MainResult.ok out) ∧
    (∀ (pdf : DF) (pworld : List PWRow)
        (toCrs : String → Except String (Geom → Geom)) (save : String → Bool)
        (outP : Option String) (cmap vc cc : String) (f : Geom → Geom),
      cc ∈ pdf.cols ∧ vc ∈ pdf.cols →
      toCrs painCrs = Except.ok f →
      ¬ ((painVRows pdf cc vc).map VRow.code).Nodup →
      ∃ pout, painOutOf (painGenerate pdf pworld toCrs save outP cmap vc cc) = some pout) := by
  refine ⟨?_, ?_, ?_⟩
  · intro α key geomOf w vs
    refine ⟨leftJoin_length key geomOf, ?_, ?_⟩
    · intro g hg v hv hcode
      exact leftJoin_pair_mem key geomOf hg hv hcode
    · intro m hm hr
      exact leftJoin_matched_inv key geomOf hm hr
  · intro df world toCrs cfg f hcols htoCrs hscheme _
    exact ⟨_, colorWorldMain_ok df world toCrs cfg f hcols htoCrs hscheme⟩
  · intro pdf pworld toCrs save outP cmap vc cc f hcols htoCrs _
    refine ⟨{ merged := projRows f (painMergedPre pdf pworld cc vc),
              warned := !(painMissing pdf pworld cc vc).isEmpty,
              missingCodes := painMissing pdf pworld cc vc,
              crs := painCrs, crsFallback := false,
              plot := painPlotCall cmap,
              savedTo := if save (outP.getD painDefaultOutput) then
                  some (outP.getD painDefaultOutput) else none }, ?_⟩
    rw [painGenerate_ok pdf pworld toCrs save outP cmap vc cc f hcols htoCrs]
    rfl

/-- A value table carrying the same code twice. -/
def exDupDF : DF :=
  ⟨["iso_a3", "value"], [[Cell.str "USA", Cell.num 1], [Cell.str "USA", Cell.num 2]]⟩

/-- Witness for `c7_no_uniqueness`: a duplicated `USA` table is accepted by
both scripts, and the pair `(USA geometry row, second USA value row)` has
its own merged row. -/
theorem c7_witness :
    (MRowG.mk (⟨"United States of America", "USA", 1⟩ : WRow) 1 (some "USA")
        (some (Cell.num 2))) ∈
      leftJoin WRow.key WRow.geom [⟨"United States of America", "USA", 1⟩]
        (colorVRows exDupDF colorDefaults) ∧
    (∃ out, colorWorldMain exDupDF [⟨"United States of America", "USA", 1⟩] exToCrsOk
        colorDefaults = MainResult.ok out) ∧
    (∃ pout, painOutOf (painGenerate
        (DF.mk ["sov_a3", "value"] [[Cell.str "FR1", Cell.num 1], [Cell.str "FR1", Cell.num 2]])
        exPWorld exToCrsOk exSaveOk none "Greys" "value" "sov_a3") = some pout) := by
  refine ⟨?_, ?_, ?_⟩
  · exact ((c7_no_uniqueness.1 WRow WRow.key WRow.geom
      [⟨"United States of America", "USA", 1⟩] (colorVRows exDupDF colorDefaults)).2.1
      ⟨"United States of America", "USA", 1⟩ (by decide)
      ⟨"USA", some (Cell.num 2)⟩ (by decide) (by decide))
  · exact c7_no_uniqueness.2.1 exDupDF [⟨"United States of America", "USA", 1⟩]
      exToCrsOk colorDefaults exShift (by decide) rfl rfl (by decide)
  · exact c7_no_uniqueness.2.2
      (DF.mk ["sov_a3", "value"] [[Cell.str "FR1", Cell.num 1], [Cell.str "FR1", Cell.num 2]])
      exPWorld exToCrsOk exSaveOk none "Greys" "value" "sov_a3" exShift (by decide) rfl
      (by decide)

/-- C8: both scripts normalise the code column with
`.astype(str).str.upper().str.strip()` before joining, so altering the
letter case of, or padding with surrounding whitespace, any code of the
input table leaves the cleaned table — and with it the whole run, its join
result and its matched/missing code sets — unchanged. -/
theorem c8_normalization_invariance :
    ∀ (df : DF) (codeCol : String) (f : Nat → String → String),
      (∀ n s, variantOf (f n s) s) →
      cleanCodesDF (alterCodes df codeCol f) codeCol = cleanCodesDF df codeCol ∧
      (∀ (world : List WRow) (toCrs : String → Except String (Geom → Geom))
          (cfg : ColorCfg), cfg.codeCol = codeCol →
        colorWorldMain (alterCodes df codeCol f) world toCrs cfg =
          colorWorldMain df world toCrs cfg) ∧
      (∀ (pworld : List PWRow) (toCrs : String → Except String (Geom → Geom))
          (save : String → Bool) (outP : Option String) (cmap vc : String),
        codeCol ∈ df.cols ∧ vc ∈ df.cols →
        painGenerate (alterCodes df codeCol f) pworld toCrs save outP cmap vc codeCol =
          painGenerate df pworld toCrs save outP cmap vc codeCol) := by
  intro df codeCol f hf
  refine ⟨cleanCodesDF_alterCodes df codeCol f hf, ?_, ?_⟩
  · intro world toCrs cfg hcc
    subst hcc
    unfold colorWorldMain
    rw [alterCodes_cols]
    by_cases hg : cfg.codeCol ∈ df.cols ∧ cfg.valueCol ∈ df.cols
    · rw [if_pos hg, if_pos hg, cleanCodesDF_alterCodes df cfg.codeCol f hf]
    · rw [if_neg hg, if_neg hg]
  · intro pworld toCrs save outP cmap vc hcols
    unfold painGenerate
    rw [alterCodes_cols]
    rw [if_pos hcols, if_pos hcols, cleanCodesDF_alterCodes df codeCol f hf]

/-- A concrete alteration surrounding every code with spaces. -/
def exPad : Nat → String → String := fun _ s => " " ++ s ++ " "

theorem exPad_variant : ∀ (n : Nat) (s : String), variantOf (exPad n s) s := by
  intro n s
  cases s with
  | mk l => exact ⟨[' '], l, [' '], rfl, by decide, by decide, rfl⟩

/-- Witness for `c8_normalization_invariance`: space-padding every code of
the fixtures changes neither the cleaned table nor either script's run. -/
theorem c8_witness :
    cleanCodesDF (alterCodes exDF "iso_a3" exPad) "iso_a3" = cleanCodesDF exDF "iso_a3" ∧
    colorWorldMain (alterCodes exDF "iso_a3" exPad) exWorld exToCrsOk colorDefaults =
      colorWorldMain exDF exWorld exToCrsOk colorDefaults ∧
    painGenerate (alterCodes exPDF "sov_a3" exPad) exPWorld exToCrsOk exSaveOk none
        "Greys" "value" "sov_a3" =
      painGenerate exPDF exPWorld exToCrsOk exSaveOk none "Greys" "value" "sov_a3" := by
  refine ⟨(c8_normalization_invariance exDF "iso_a3" exPad exPad_variant).1,
    (c8_normalization_invariance exDF "iso_a3" exPad exPad_variant).2.1 exWorld
      exToCrsOk colorDefaults rfl,
    (c8_normalization_invariance exPDF "sov_a3" exPad exPad_variant).2.2 exPWorld
      exToCrsOk exSaveOk none "Greys" "value" (by decide)⟩

/-- A reprojection stub for which `to_crs` always raises. -/
def exToCrsAllFail : String → Except String (Geom → Geom) := fun _ =>
  Except.error "proj error"

/-- C9 (counterexample): in `pain-to-map.py` the selected CRS is already
PlateCarree, so when `to_crs` fails there the except arm re-issues the
identical failed call and the run aborts with an uncaught exception —
it does not warn-and-continue as the claim states for both scripts. -/
theorem c9_counterexample :
    painGenerate exPDF exPWorld exToCrsAllFail exSaveOk none "Greys" "value" "sov_a3" =
      PainResult.crash "proj error" ∧
    painOutOf (painGenerate exPDF exPWorld exToCrsAllFail exSaveOk none
        "Greys" "value" "sov_a3") = none := by
  decide

/-- C9 (amended): if reprojecting to the selected CRS fails,
`color_world_map.py` does not abort there: the `try`/`except` block
(`projectStep`, identical in both scripts) warns — the `true` flag — and
reprojects to PlateCarree (`EPSG:4326`) instead, and the run completes with
the fallback-projected table. `pain-to-map.py` carries the same block, but
its selected CRS already is `EPSG:4326`, so a reprojection failure there
makes the except arm re-raise and `generate_map` aborts. -/
theorem c9_projection_fallback :
    (∀ (α : Type) (toCrs : String → Except String (Geom → Geom)) (crs : String)
        (t : List (MRowG α)) (e : String) (f : Geom → Geom),
      toCrs crs = Except.error e → toCrs "EPSG:4326" = Except.ok f →
      projectStep toCrs crs t = Except.ok (true, projRows f t)) ∧
    (∀ (df : DF) (world : List WRow) (toCrs : String → Except String (Geom → Geom))
        (cfg : ColorCfg) (e : String) (f : Geom → Geom),
      cfg.codeCol ∈ df.cols ∧ cfg.valueCol ∈ df.cols →
      toCrs (projCrs cfg) = Except.error e →
      toCrs "EPSG:4326" = Except.ok f →
      cfg.scheme = none →
      ∃ out, colorWorldMain df world toCrs cfg = MainResult.ok out ∧
        out.crsFallback = true ∧
        out.merged = projRows f (colorMergedPre df world cfg)) ∧
    painCrs = "EPSG:4326" ∧
    (∀ (pdf : DF) (pworld : List PWRow)
        (toCrs : String → Except String (Geom → Geom)) (save : String → Bool)
        (outP : Option String) (cmap vc cc : String) (e : String),
      cc ∈ pdf.cols ∧ vc ∈ pdf.cols →
      toCrs painCrs = Except.error e →
      painGenerate pdf pworld toCrs save outP cmap vc cc = PainResult.crash e) := by
  refine ⟨?_, ?_, rfl, ?_⟩
  · intro α toCrs crs t e f h1 h2
    unfold projectStep
    rw [h1, h2]
    rfl
  · intro df world toCrs cfg e f hcols hfail hfb hscheme
    exact ⟨_, colorWorldMain_fallback df world toCrs cfg e f hcols hfail hfb hscheme,
      rfl, rfl⟩
  · intro pdf pworld toCrs save outP cmap vc cc e hcols htoCrs
    have hp : painCrs = "EPSG:4326" := rfl
    rw [hp] at htoCrs
    have hstep : projectStep toCrs painCrs
        (painMergedOf (cleanCodesDF pdf cc) pworld cc vc) = Except.error e := by
      unfold projectStep
      rw [hp, htoCrs]
    unfold painGenerate
    rw [if_pos hcols]
    unfold painAfterClean
    rw [hstep]

/-- Witness for `c9_projection_fallback`: a reprojection stub rejecting the
Robinson string makes the `color_world_map.py` run warn, fall back and
still complete, while a stub failing on every CRS makes `generate_map`
abort. -/
theorem c9_witness :
    projectStep exToCrsFail (projCrs colorDefaults)
        (painMergedPre exPDF exPWorld "sov_a3" "value") =
      Except.ok (true, projRows exShift (painMergedPre exPDF exPWorld "sov_a3" "value")) ∧
    (∃ out, colorWorldMain exDF exWorld exToCrsFail colorDefaults = MainResult.ok out ∧
      out.crsFallback = true ∧
      out.merged = projRows exShift (colorMergedPre exDF exWorld colorDefaults)) ∧
    painGenerate exPDF exPWorld exToCrsAllFail exSaveOk none "Greys" "value" "sov_a3" =
      PainResult.crash "proj error" := by
  refine ⟨?_, ?_, ?_⟩
  · exact c9_projection_fallback.1 PWRow exToCrsFail (projCrs colorDefaults)
      (painMergedPre exPDF exPWorld "sov_a3" "value") "proj error" exShift rfl rfl
  · exact c9_projection_fallback.2.1 exDF exWorld exToCrsFail colorDefaults "proj error"
      exShift (by decide) rfl rfl rfl
  · exact c9_projection_fallback.2.2.2 exPDF exPWorld exToCrsAllFail exSaveOk none
      "Greys" "value" "sov_a3" "proj error" (by decide) rfl

end PainMap
